import Mathlib

/-!
# Verification of the PS2000B telegram codec and device session

Shallow embedding of `pyps2000b/PS2000B.py` (Python driver for
Elektro Automatik PS 2000 B power supplies).

Python integers are modelled as `Int` (Python's `&`, `|`, `<<`, `>>` on
arbitrary-precision two's-complement integers correspond exactly to
`Int.land`, `Int.lor`, `<<<`, `Int.shiftRight`).  A Python `bytearray`
construction, which raises `ValueError` unless every element lies in
`[0, 256)`, is modelled as an `Option`-returning conversion.  Python
floats in the unit-conversion layer are modelled as rationals `ℚ`
(every computation the claims exercise is exact).  Code that can raise
an exception is modelled with `Option`/`Except`; code that cannot raise
is a total function.  The serial transport is modelled as a pure oracle
`respond : List Nat → List Nat` mapping the written request bytes to the
bytes returned by the subsequent read, and each session operation
additionally returns the trace of frames written to the transport, so
that round-trips can be counted.
-/

/-! ## Communication constants (`Constants`, `Objects`, `ControlParameters`) -/

def DEVICE_NODE : Int := 0x0

def SET_VALUE_VOLTAGE : Int := 50

def SET_VALUE_CURRENT : Int := 51

def POWER_SUPPLY_CONTROL : Int := 54

def STATUS_ACTUAL_VALUES : Int := 71

def SWITCH_MODE_CMD : Int := 0x10

def SWITCH_MODE_REMOTE : Int := 0x10

/-- A Python int is a valid `bytearray` element iff it lies in `[0, 256)`. -/
def is_byte (b : Int) : Bool :=
  decide (0 ≤ b) && decide (b < 256)

/-- `bytearray(xs)`: succeeds iff every element is a byte value. -/
def to_bytearray (xs : List Int) : Option (List Nat) :=
  if xs.all is_byte then some (xs.map Int.toNat) else none

/-! ## Telegram base class -/

/-- `Telegram._calc_checksum`: sum all of `self._bytes` and split the sum
into its high byte `(cs & 0xff00) >> 8` and low byte `cs & 0xff`. -/
def calc_checksum (bytes : List Int) : List Int :=
  let cs := bytes.sum
  [Int.shiftRight (Int.land cs 0xff00) 8, Int.land cs 0xff]

/-- `Telegram._get_start_delimiter`: raises unless
`expected_data_length <= 16`; otherwise ors together the length nibble
`expected_data_length - 1`, the two fixed bits `0b10000` and `0b100000`,
and the transmission type shifted left by 6. -/
def get_start_delimiter (transmission expected_data_length : Int) :
    Except String Int :=
  if expected_data_length > 16 then
    Except.error "only 4 bits for expected length can be used"
  else
    Except.ok (Int.lor
      (Int.lor (Int.lor (Int.lor 0 (expected_data_length - 1)) 0b10000) 0b100000)
      (transmission <<< (6 : Int)))

/-! ## `ToPowerSupply` -/

structure ToPowerSupply where
  _bytes : List Int
  _checksum : List Int
  checksum_ok : Bool
deriving DecidableEq

/-- `ToPowerSupply.__init__`: start delimiter (may raise), then the data
bytes; the checksum is computed over those bytes and `checksum_ok` is set
to `True`. -/
def ToPowerSupply.init (transmission : Int) (data : List Int)
    (expected_data_length : Int) : Except String ToPowerSupply :=
  match get_start_delimiter transmission expected_data_length with
  | Except.error e => Except.error e
  | Except.ok sd =>
    let bytes := sd :: data
    Except.ok ⟨bytes, calc_checksum bytes, true⟩

/-- `Telegram.get_byte_array`: `bytearray(self._bytes + self._checksum)`
(raises unless every element is a byte value). -/
def ToPowerSupply.get_byte_array (t : ToPowerSupply) : Option (List Nat) :=
  to_bytearray (t._bytes ++ t._checksum)

/-! ## `FromPowerSupply` -/

structure FromPowerSupply where
  _bytes : List Int
  _checksum : List Int
  checksum_ok : Bool
deriving DecidableEq

/-- `FromPowerSupply.__init__`: split the raw bytes into `data[0:-2]`
(the body) and the last two bytes (the received checksum), then compare
the received checksum with the recomputed one.  Total: no input makes it
raise. -/
def FromPowerSupply.init (raw_data : List Nat) : FromPowerSupply :=
  let data : List Int := raw_data.map Int.ofNat
  let bytes := data.take (data.length - 2)
  let checksum := data.drop (data.length - 2)
  ⟨bytes, checksum, decide (checksum = calc_checksum bytes)⟩

/-- `FromPowerSupply.get_sd`: `self._bytes[0]` (raises when absent). -/
def FromPowerSupply.get_sd (t : FromPowerSupply) : Option Int :=
  t._bytes[0]?

/-- `FromPowerSupply.get_device_node`: `self._bytes[1]`. -/
def FromPowerSupply.get_device_node (t : FromPowerSupply) : Option Int :=
  t._bytes[1]?

/-- `FromPowerSupply.get_object`: `self._bytes[3]` (raises when absent). -/
def FromPowerSupply.get_object (t : FromPowerSupply) : Option Int :=
  t._bytes[3]?

/-- `FromPowerSupply.get_data`: `self._bytes[3:len(self._bytes)]`. -/
def FromPowerSupply.get_data (t : FromPowerSupply) : List Int :=
  t._bytes.drop 3

/-! ## Decoding helpers -/

/-- `as_string`: `bytearray(raw_data[:-1])` — drops exactly the final
byte, nothing else. -/
def as_string (raw_data : List Int) : Option (List Nat) :=
  to_bytearray (raw_data.take (raw_data.length - 1))

/-- `as_word`: `struct.unpack_from(">H", bytearray(raw_data))[0]` — the
big-endian 16-bit word formed by the first two bytes; raises when the
input is shorter than two bytes or contains a non-byte value. -/
def as_word (raw_data : List Int) : Option Int :=
  if raw_data.all is_byte then
    match raw_data with
    | a :: b :: _ => some (a * 256 + b)
    | _ => none
  else none

/-! ## `DeviceStatusInformation` -/

structure DeviceStatusInformation where
  remote_control_active : Int
  output_active : Int
  actual_voltage_percent : ℚ
  actual_current_percent : ℚ
deriving DecidableEq

/-- `DeviceStatusInformation.__init__`: `raw_data[0] & 0b1`,
`raw_data[1] & 0b1`, `float(as_word(raw_data[2:4])) / 256`,
`float(as_word(raw_data[4:6])) / 256`.  Raises (modelled as `none`)
when the data is too short or holds non-byte values. -/
def DeviceStatusInformation.init (raw_data : List Int) :
    Option DeviceStatusInformation :=
  match raw_data[0]?, raw_data[1]?,
      as_word ((raw_data.drop 2).take 2), as_word ((raw_data.drop 4).take 2) with
  | some b0, some b1, some w1, some w2 =>
    some ⟨Int.land b0 0b1, Int.land b1 0b1, (w1 : ℚ) / 256, (w2 : ℚ) / 256⟩
  | _, _, _, _ => none

/-! ## Device session (`PS2000B`)

The mutable fields of a `PS2000B` object that the modelled operations
touch: the cached nominal ratings (read once at construction from the
device, here simply state) and the cached status snapshot
(`self.__device_status_information`, `None` until first populated).
Each operation takes the transport oracle `respond` and the state, and
returns `none` when the Python code would raise, otherwise the updated
state together with the list of frames written to the transport (one
entry per write/read round-trip). -/

structure PS2000BState where
  nominal_voltage : ℚ
  nominal_current : ℚ
  device_status_information : Option DeviceStatusInformation
deriving DecidableEq

/-- `PS2000B.__send_and_receive`: write the bytes, read the reply, wrap
it in a `FromPowerSupply`. -/
def send_and_receive (respond : List Nat → List Nat) (raw_bytes : List Nat) :
    FromPowerSupply :=
  FromPowerSupply.init (respond raw_bytes)

/-- `PS2000B.update_device_information`: send the status query
(`ToPowerSupply(0b01, [DEVICE_NODE, STATUS_ACTUAL_VALUES], 6)`) and
replace the cached status with a `DeviceStatusInformation` decoded from
the reply's data. -/
def update_device_information (respond : List Nat → List Nat)
    (s : PS2000BState) : Option (PS2000BState × List (List Nat)) :=
  match ToPowerSupply.init 0b01 [DEVICE_NODE, STATUS_ACTUAL_VALUES] 6 with
  | Except.error _ => none
  | Except.ok telegram =>
    match telegram.get_byte_array with
    | none => none
    | some q =>
      let device_information := send_and_receive respond q
      match DeviceStatusInformation.init device_information.get_data with
      | none => none
      | some dsi =>
        some ({ s with device_status_information := some dsi }, [q])

/-- `PS2000B.get_device_status_information`: refresh only when no status
is cached, then return the cached snapshot. -/
def get_device_status_information (respond : List Nat → List Nat)
    (s : PS2000BState) :
    Option (DeviceStatusInformation × PS2000BState × List (List Nat)) :=
  match s.device_status_information with
  | some d => some (d, s, [])
  | none =>
    match update_device_information respond s with
    | none => none
    | some (s1, tr) =>
      match s1.device_status_information with
      | none => none
      | some d => some (d, s1, tr)

/-- `PS2000B.get_voltage`: always refresh, then
`nominal_voltage * actual_voltage_percent / 100`. -/
def get_voltage (respond : List Nat → List Nat) (s : PS2000BState) :
    Option (ℚ × PS2000BState × List (List Nat)) :=
  match update_device_information respond s with
  | none => none
  | some (s1, tr) =>
    match s1.device_status_information with
    | none => none
    | some d =>
      some (s1.nominal_voltage * d.actual_voltage_percent / 100, s1, tr)

/-- `PS2000B.get_current`: always refresh, then
`nominal_current * actual_current_percent / 100`. -/
def get_current (respond : List Nat → List Nat) (s : PS2000BState) :
    Option (ℚ × PS2000BState × List (List Nat)) :=
  match update_device_information respond s with
  | none => none
  | some (s1, tr) =>
    match s1.device_status_information with
    | none => none
    | some d =>
      some (s1.nominal_current * d.actual_current_percent / 100, s1, tr)

/-- `PS2000B.__send_device_control`: one control round-trip
(`ToPowerSupply(0b11, [DEVICE_NODE, POWER_SUPPLY_CONTROL, p1, p2], 2)`,
reply discarded) followed by `update_device_information`. -/
def send_device_control (respond : List Nat → List Nat) (p1 p2 : Int)
    (s : PS2000BState) : Option (PS2000BState × List (List Nat)) :=
  match ToPowerSupply.init 0b11 [DEVICE_NODE, POWER_SUPPLY_CONTROL, p1, p2] 2 with
  | Except.error _ => none
  | Except.ok telegram =>
    match telegram.get_byte_array with
    | none => none
    | some c =>
      let _ := send_and_receive respond c
      match update_device_information respond s with
      | none => none
      | some (s1, tr) => some (s1, c :: tr)

/-- `PS2000B.__send_device_data`: one control round-trip
(`ToPowerSupply(0b11, [DEVICE_NODE, obj, data >> 8, data & 0xff], 4)`,
reply discarded) followed by `update_device_information`. -/
def send_device_data (respond : List Nat → List Nat) (obj data : Int)
    (s : PS2000BState) : Option (PS2000BState × List (List Nat)) :=
  match ToPowerSupply.init 0b11
      [DEVICE_NODE, obj, Int.shiftRight data 8, Int.land data 0xff] 4 with
  | Except.error _ => none
  | Except.ok telegram =>
    match telegram.get_byte_array with
    | none => none
    | some c =>
      let _ := send_and_receive respond c
      match update_device_information respond s with
      | none => none
      | some (s1, tr) => some (s1, c :: tr)

/-- `PS2000B.enable_remote_control`. -/
def enable_remote_control (respond : List Nat → List Nat) (s : PS2000BState) :
    Option (PS2000BState × List (List Nat)) :=
  send_device_control respond SWITCH_MODE_CMD SWITCH_MODE_REMOTE s

/-- Python's `round` (banker's rounding: ties go to the even integer),
as applied by `set_voltage` via `int(round(...))`. -/
def py_round (q : ℚ) : Int :=
  let f := ⌊q⌋
  let r := q - f
  if r < 1 / 2 then f
  else if 1 / 2 < r then f + 1
  else if 2 ∣ f then f else f + 1

/-- `PS2000B.set_voltage`: refresh status, enable remote control (itself
a control round-trip plus a refresh), convert the physical value to the
raw word `int(round(value * 25600.0 / nominal_voltage))` (division by a
zero nominal rating raises, modelled as `none`), then send it (another
control round-trip plus a refresh). -/
def set_voltage (respond : List Nat → List Nat) (value : ℚ)
    (s : PS2000BState) : Option (PS2000BState × List (List Nat)) :=
  match update_device_information respond s with
  | none => none
  | some (s1, tr1) =>
    match enable_remote_control respond s1 with
    | none => none
    | some (s2, tr2) =>
      if s2.nominal_voltage = 0 then none
      else
        let volt := py_round (value * 25600 / s2.nominal_voltage)
        match send_device_data respond SET_VALUE_VOLTAGE volt s2 with
        | none => none
        | some (s3, tr3) => some (s3, tr1 ++ tr2 ++ tr3)

/-! ## Arithmetic facts about the checksum primitives -/

theorem int_land_ofNat (m n : Nat) :
    Int.land (Int.ofNat m) (Int.ofNat n) = Int.ofNat (m &&& n) := rfl

theorem int_shiftRight_ofNat (m s : Nat) :
    Int.shiftRight (Int.ofNat m) s = Int.ofNat (m >>> s) := rfl

theorem list_sum_map_ofNat (l : List Nat) :
    (l.map Int.ofNat).sum = Int.ofNat l.sum := by
  induction l with
  | nil => rfl
  | cons a t ih =>
    simp only [List.map_cons, List.sum_cons, ih, List.sum_cons]
    exact (Int.ofNat_add a t.sum).symm

theorem nat_and_ff (x : Nat) : x &&& 0xff = x % 256 := by
  have h := Nat.and_pow_two_sub_one_eq_mod x 8
  norm_num at h
  exact h

theorem nat_and_ff00_shiftRight (x : Nat) :
    (x &&& 0xff00) >>> 8 = x / 256 % 256 := by
  have h1 : x / 256 % 256 = (x >>> 8) % 2 ^ 8 := by
    rw [Nat.shiftRight_eq_div_pow]; norm_num
  rw [h1]
  apply Nat.eq_of_testBit_eq
  intro i
  rw [Nat.testBit_shiftRight, Nat.testBit_and, Nat.testBit_mod_two_pow,
    Nat.testBit_shiftRight]
  have h2 : Nat.testBit 0xff00 (8 + i) = decide (i < 8) := by
    have h3 : (0xff00 : ℕ) = (2 ^ 8 - 1) <<< 8 := by norm_num [Nat.shiftLeft_eq]
    rw [h3, Nat.testBit_shiftLeft, Nat.testBit_two_pow_sub_one]
    simp
  rw [h2, Bool.and_comm]

/-- The checksum of a list of byte values: two bytes holding the 16-bit
sum `(sum / 256 % 256, sum % 256)`. -/
theorem calc_checksum_map_ofNat (l : List Nat) :
    calc_checksum (l.map Int.ofNat) =
      [Int.ofNat (l.sum / 256 % 256), Int.ofNat (l.sum % 256)] := by
  unfold calc_checksum
  rw [list_sum_map_ofNat]
  show [Int.shiftRight (Int.land (Int.ofNat l.sum) (Int.ofNat 0xff00)) 8,
      Int.land (Int.ofNat l.sum) (Int.ofNat 0xff)] = _
  rw [int_land_ofNat, int_land_ofNat, int_shiftRight_ofNat,
    nat_and_ff00_shiftRight, nat_and_ff]

theorem list_map_toNat_ofNat (l : List Int) (h : ∀ b ∈ l, is_byte b = true) :
    (l.map Int.toNat).map Int.ofNat = l := by
  induction l with
  | nil => rfl
  | cons a t ih =>
    have ha := h a (List.mem_cons_self a t)
    simp only [is_byte, Bool.and_eq_true, decide_eq_true_eq] at ha
    simp only [List.map_cons, List.map_cons, ih fun b hb => h b (List.mem_cons_of_mem a hb)]
    have h2 : Int.ofNat a.toNat = a := Int.toNat_of_nonneg ha.1
    rw [h2]

theorem is_byte_ofNat (x : Nat) (h : x < 256) : is_byte (Int.ofNat x) = true := by
  simp only [is_byte, Bool.and_eq_true, decide_eq_true_eq]
  refine ⟨Int.ofNat_nonneg x, ?_⟩
  rw [show (256 : Int) = Int.ofNat 256 from rfl]
  exact Int.ofNat_lt.mpr h

/-- Unfolding of the `checksum_ok` field computed by
`FromPowerSupply.__init__`. -/
theorem FromPowerSupply.init_checksum_ok (raw_data : List Nat) :
    (FromPowerSupply.init raw_data).checksum_ok =
      decide ((raw_data.map Int.ofNat).drop ((raw_data.map Int.ofNat).length - 2) =
        calc_checksum ((raw_data.map Int.ofNat).take ((raw_data.map Int.ofNat).length - 2))) :=
  rfl

/-- Unfolding of the `_bytes` field computed by `FromPowerSupply.__init__`. -/
theorem FromPowerSupply.init_bytes (raw_data : List Nat) :
    (FromPowerSupply.init raw_data)._bytes =
      (raw_data.map Int.ofNat).take ((raw_data.map Int.ofNat).length - 2) :=
  rfl

/-- Core round-trip fact: a body of byte values followed by its own
recomputed checksum always decodes with `checksum_ok = True`. -/
theorem roundtrip_core (bytes : List Int) (hb : ∀ b ∈ bytes, is_byte b = true) :
    to_bytearray (bytes ++ calc_checksum bytes) =
      some ((bytes ++ calc_checksum bytes).map Int.toNat) ∧
      (FromPowerSupply.init ((bytes ++ calc_checksum bytes).map Int.toNat)).checksum_ok =
        true := by
  have hbytes : (bytes.map Int.toNat).map Int.ofNat = bytes :=
    list_map_toNat_ofNat bytes hb
  have hcs : calc_checksum bytes =
      [Int.ofNat ((bytes.map Int.toNat).sum / 256 % 256),
       Int.ofNat ((bytes.map Int.toNat).sum % 256)] := by
    conv_lhs => rw [← hbytes]
    rw [calc_checksum_map_ofNat]
  have hall : ∀ b ∈ bytes ++ calc_checksum bytes, is_byte b = true := by
    intro b hbmem
    rcases List.mem_append.mp hbmem with h | h
    · exact hb b h
    · rw [hcs] at h
      rcases List.mem_cons.mp h with rfl | h2
      · exact is_byte_ofNat _ (Nat.mod_lt _ (by norm_num))
      rcases List.mem_cons.mp h2 with rfl | h3
      · exact is_byte_ofNat _ (Nat.mod_lt _ (by norm_num))
      exact absurd h3 (List.not_mem_nil b)
  have hallb : (bytes ++ calc_checksum bytes).all is_byte = true :=
    List.all_eq_true.mpr hall
  refine ⟨?_, ?_⟩
  · unfold to_bytearray
    rw [if_pos hallb]
  · rw [FromPowerSupply.init_checksum_ok]
    have hid : ((bytes ++ calc_checksum bytes).map Int.toNat).map Int.ofNat =
        bytes ++ calc_checksum bytes := list_map_toNat_ofNat _ hall
    rw [hid]
    have hlen : (bytes ++ calc_checksum bytes).length - 2 = bytes.length := by
      rw [hcs]
      simp
    rw [hlen, List.take_left, List.drop_left]
    exact decide_eq_true rfl

/-- For a transmission type in `{0b01, 0b11}` and an expected length in
`[1, 16]`, the start delimiter is the byte
`transmission * 64 + 48 + (length - 1)`. -/
theorem get_start_delimiter_val (transmission expected_data_length : Int)
    (htt : transmission = 1 ∨ transmission = 3)
    (h1 : 1 ≤ expected_data_length) (h2 : expected_data_length ≤ 16) :
    get_start_delimiter transmission expected_data_length =
      Except.ok (transmission * 64 + 48 + (expected_data_length - 1)) := by
  rcases htt with rfl | rfl <;> interval_cases expected_data_length <;> rfl

theorem nat_zero_ldiff (n : Nat) : Nat.ldiff 0 n = 0 := by
  apply Nat.eq_of_testBit_eq
  intro i
  simp [Nat.testBit_ldiff]

theorem nat_ldiff_zero (n : Nat) : Nat.ldiff n 0 = n := by
  apply Nat.eq_of_testBit_eq
  intro i
  simp [Nat.testBit_ldiff]

theorem int_zero_lor (x : Int) : Int.lor 0 x = x := by
  cases x with
  | ofNat n =>
    show Int.lor (Int.ofNat 0) (Int.ofNat n) = Int.ofNat n
    simp [Int.lor]
  | negSucc n =>
    show Int.lor (Int.ofNat 0) (Int.negSucc n) = Int.negSucc n
    simp [Int.lor, nat_ldiff_zero]

theorem int_lor_neg_one (x : Int) : Int.lor (-1) x = -1 := by
  cases x with
  | ofNat n =>
    show Int.lor (Int.negSucc 0) (Int.ofNat n) = Int.negSucc 0
    simp [Int.lor, nat_zero_ldiff]
  | negSucc n =>
    show Int.lor (Int.negSucc 0) (Int.negSucc n) = Int.negSucc 0
    simp [Int.lor]

/-! ## Claim theorems: telegram codec -/

/-- C1: Checksum round-trip.  For every transmission type in
`{0b01, 0b11}`, every expected data length in `[1, 16]` and every list
of payload bytes, decoding the byte array produced by encoding an
outbound telegram yields a telegram whose `checksum_ok` flag is true. -/
theorem checksum_roundtrip (transmission expected_data_length : Int)
    (data : List Int)
    (htt : transmission = 0b01 ∨ transmission = 0b11)
    (h1 : 1 ≤ expected_data_length) (h2 : expected_data_length ≤ 16)
    (hdata : ∀ b ∈ data, is_byte b = true) :
    ∃ t arr,
      ToPowerSupply.init transmission data expected_data_length = Except.ok t ∧
      t.get_byte_array = some arr ∧
      (FromPowerSupply.init arr).checksum_ok = true := by
  have hsd := get_start_delimiter_val transmission expected_data_length htt h1 h2
  have hsdbyte : is_byte (transmission * 64 + 48 + (expected_data_length - 1)) = true := by
    simp only [is_byte, Bool.and_eq_true, decide_eq_true_eq]
    rcases htt with rfl | rfl <;> constructor <;> omega
  have hbytes : ∀ b ∈ (transmission * 64 + 48 + (expected_data_length - 1)) :: data,
      is_byte b = true := by
    intro b hb
    rcases List.mem_cons.mp hb with rfl | hmem
    · exact hsdbyte
    · exact hdata b hmem
  obtain ⟨harr, hok⟩ :=
    roundtrip_core ((transmission * 64 + 48 + (expected_data_length - 1)) :: data) hbytes
  refine ⟨⟨(transmission * 64 + 48 + (expected_data_length - 1)) :: data,
    calc_checksum ((transmission * 64 + 48 + (expected_data_length - 1)) :: data), true⟩,
    _, ?_, harr, hok⟩
  unfold ToPowerSupply.init
  rw [hsd]

theorem checksum_roundtrip_witness :
    ∃ t arr, ToPowerSupply.init 0b01 [0, 71] 16 = Except.ok t ∧
      t.get_byte_array = some arr ∧
      (FromPowerSupply.init arr).checksum_ok = true :=
  checksum_roundtrip 0b01 16 [0, 71] (Or.inl rfl) (by decide) (by decide) (by decide)

/-- C6: a received byte sequence whose trailing two checksum bytes do not
encode the 16-bit sum (mod 65536) of the preceding bytes decodes with
`checksum_ok = False`.  (`FromPowerSupply.init` is a total function: the
mismatch never raises, the flag is advisory only.) -/
theorem checksum_mismatch_flag (body : List Nat) (c1 c2 : Nat)
    (hne : c1 * 256 + c2 ≠ body.sum % 65536) :
    (FromPowerSupply.init (body ++ [c1, c2])).checksum_ok = false := by
  rw [FromPowerSupply.init_checksum_ok]
  have hmap : (body ++ [c1, c2]).map Int.ofNat =
      body.map Int.ofNat ++ [Int.ofNat c1, Int.ofNat c2] := by simp
  rw [hmap]
  have hlen : (body.map Int.ofNat ++ [Int.ofNat c1, Int.ofNat c2]).length - 2 =
      (body.map Int.ofNat).length := by simp
  rw [hlen, List.take_left, List.drop_left, calc_checksum_map_ofNat]
  apply decide_eq_false
  intro heq
  rw [List.cons.injEq, List.cons.injEq] at heq
  obtain ⟨hA, hB, -⟩ := heq
  have hA2 : c1 = body.sum / 256 % 256 := Int.ofNat.inj hA
  have hB2 : c2 = body.sum % 256 := Int.ofNat.inj hB
  apply hne
  omega

theorem checksum_mismatch_flag_witness :
    (1 : Nat) * 256 + 2 ≠ ([5, 6] : List Nat).sum % 65536 ∧
    (FromPowerSupply.init ([5, 6] ++ [1, 2])).checksum_ok = false :=
  ⟨by decide, checksum_mismatch_flag [5, 6] 1 2 (by decide)⟩

/-- C10: decoding never raises (the embedding `FromPowerSupply.init` is a
total function on arbitrary byte lists, mirroring that `__init__` only
performs slicing and summation, which are total in Python), and every
input shorter than two bytes decodes with `checksum_ok = False`. -/
theorem decode_short_input_flag (raw_data : List Nat)
    (h : raw_data.length < 2) :
    (FromPowerSupply.init raw_data).checksum_ok = false := by
  match raw_data with
  | [] => rfl
  | [a] =>
    rw [FromPowerSupply.init_checksum_ok]
    apply decide_eq_false
    simp [calc_checksum]
  | a :: b :: t =>
    exact absurd h (by simp)

theorem decode_short_input_flag_witness :
    ([] : List Nat).length < 2 ∧ (FromPowerSupply.init []).checksum_ok = false :=
  ⟨by decide, decode_short_input_flag [] (by decide)⟩

/-- C7: for an inbound frame with at least four body bytes before the
checksum, the object id is the body byte at index 3, the data is the
body from index 3 onward, and hence the first exposed data byte equals
the exposed object id. -/
theorem data_head_eq_object (raw_data : List Nat)
    (h : 4 ≤ (FromPowerSupply.init raw_data)._bytes.length) :
    (FromPowerSupply.init raw_data).get_data =
      (FromPowerSupply.init raw_data)._bytes.drop 3 ∧
    (FromPowerSupply.init raw_data).get_object =
      (FromPowerSupply.init raw_data)._bytes[3]? ∧
    (FromPowerSupply.init raw_data).get_data.head? =
      (FromPowerSupply.init raw_data).get_object := by
  refine ⟨rfl, rfl, ?_⟩
  unfold FromPowerSupply.get_data FromPowerSupply.get_object
  rw [List.head?_eq_getElem?, List.getElem?_drop]

theorem data_head_eq_object_witness :
    4 ≤ (FromPowerSupply.init [117, 0, 0, 71, 5, 6, 0, 199])._bytes.length ∧
    (FromPowerSupply.init [117, 0, 0, 71, 5, 6, 0, 199]).get_data.head? =
      (FromPowerSupply.init [117, 0, 0, 71, 5, 6, 0, 199]).get_object :=
  ⟨by decide,
   (data_head_eq_object [117, 0, 0, 71, 5, 6, 0, 199] (by decide)).2.2⟩

/-- C8: start delimiter encoding.  For a transmission type `TT` in
`{0b01, 0b11}` and an expected data length `L` in `[1, 16]`, the
delimiter equals `(TT << 6) | 0b100000 | 0b10000 | (L - 1)` (bits 5 and
4 fixed at 1), and its low nibble decodes back to `L - 1`. -/
theorem start_delimiter_encoding (transmission expected_data_length : Int)
    (htt : transmission = 0b01 ∨ transmission = 0b11)
    (h1 : 1 ≤ expected_data_length) (h2 : expected_data_length ≤ 16) :
    get_start_delimiter transmission expected_data_length =
      Except.ok (Int.lor
        (Int.lor (Int.lor (transmission <<< (6 : Int)) 0b100000) 0b10000)
        (expected_data_length - 1)) ∧
    ∀ sd, get_start_delimiter transmission expected_data_length = Except.ok sd →
      Int.land sd 0b1111 = expected_data_length - 1 := by
  have hval := get_start_delimiter_val transmission expected_data_length htt h1 h2
  refine ⟨?_, ?_⟩
  · rw [hval]
    rcases htt with rfl | rfl <;> interval_cases expected_data_length <;> rfl
  · intro sd hsd
    rw [hval] at hsd
    injection hsd with h
    rw [← h]
    rcases htt with rfl | rfl <;> interval_cases expected_data_length <;> rfl

theorem start_delimiter_encoding_witness :
    get_start_delimiter 0b11 16 =
      Except.ok (Int.lor
        (Int.lor (Int.lor ((0b11 : Int) <<< (6 : Int)) 0b100000) 0b10000)
        ((16 : Int) - 1)) ∧
    ∀ sd, get_start_delimiter 0b11 16 = Except.ok sd →
      Int.land sd 0b1111 = (16 : Int) - 1 :=
  start_delimiter_encoding 0b11 16 (Or.inr rfl) (by decide) (by decide)

/-- C3 counterexample: constructing an outbound telegram with expected
data length 0 does NOT fail — the constructor succeeds and silently
stores the invalid start delimiter −1 (`0 | (0-1) | 0b10000 | 0b100000 |
(tt << 6) = -1` in Python's two's complement arithmetic).  Only `> 16`
is rejected by `_get_start_delimiter`. -/
theorem construct_length_zero_succeeds :
    ∃ t, ToPowerSupply.init 0b01 [DEVICE_NODE, STATUS_ACTUAL_VALUES] 0 =
      Except.ok t := by
  unfold ToPowerSupply.init get_start_delimiter
  rw [if_neg (by omega)]
  exact ⟨_, rfl⟩

/-- C3 amended: the constructor fails (with the configuration error
message) exactly when the expected data length exceeds 16; for every
length `≤ 16` — including 0 — construction succeeds.  For length 0 the
resulting telegram carries start delimiter −1, so the later conversion
to a byte array (`get_byte_array`) fails instead. -/
theorem construct_length_bound (transmission : Int) (data : List Int)
    (expected_data_length : Int) :
    (expected_data_length > 16 →
      ToPowerSupply.init transmission data expected_data_length =
        Except.error "only 4 bits for expected length can be used") ∧
    (expected_data_length ≤ 16 →
      ∃ t, ToPowerSupply.init transmission data expected_data_length =
        Except.ok t) ∧
    (∀ t, ToPowerSupply.init transmission data 0 = Except.ok t →
      t.get_byte_array = none) := by
  refine ⟨?_, ?_, ?_⟩
  · intro hgt
    unfold ToPowerSupply.init get_start_delimiter
    rw [if_pos hgt]
  · intro hle
    unfold ToPowerSupply.init get_start_delimiter
    rw [if_neg (by omega)]
    exact ⟨_, rfl⟩
  · intro t ht
    have hsd : get_start_delimiter transmission 0 = Except.ok (-1) := by
      unfold get_start_delimiter
      rw [if_neg (by omega)]
      congr 1
      have e1 : Int.lor 0 ((0 : Int) - 1) = -1 := by
        rw [int_zero_lor]; norm_num
      rw [e1, int_lor_neg_one, int_lor_neg_one, int_lor_neg_one]
    unfold ToPowerSupply.init at ht
    rw [hsd] at ht
    injection ht with ht2
    rw [← ht2]
    show to_bytearray (((-1) :: data) ++ calc_checksum ((-1) :: data)) = none
    unfold to_bytearray
    have hall : (((-1 : Int) :: data) ++
        calc_checksum ((-1) :: data)).all is_byte = false := by
      rw [List.cons_append, List.all_cons]
      rw [show is_byte (-1) = false from rfl]
      rfl
    rw [hall]
    rfl

theorem construct_length_bound_witness :
    (ToPowerSupply.init 0b01 [0, 71] 17 =
      Except.error "only 4 bits for expected length can be used") ∧
    (∃ t, ToPowerSupply.init 0b01 [0, 71] 16 = Except.ok t) ∧
    (∀ t, ToPowerSupply.init 0b01 [0, 71] 0 = Except.ok t →
      t.get_byte_array = none) :=
  ⟨(construct_length_bound 0b01 [0, 71] 17).1 (by decide),
   (construct_length_bound 0b01 [0, 71] 16).2.1 (by decide),
   (construct_length_bound 0b01 [0, 71] 0).2.2⟩

/-- The raw 16-byte string field of the C5 example:
`b"EA-PS"` followed by eleven NUL bytes. -/
def EA_PS_RAW_FIELD : List Int := [69, 65, 45, 80, 83] ++ List.replicate 11 0

/-- C5 counterexample: `as_string` applied to the 16-byte field
`b"EA-PS" + 11 * NUL` does not yield the 5-byte string `"EA-PS"` — the
interior NUL padding is not stripped. -/
theorem as_string_keeps_padding :
    as_string EA_PS_RAW_FIELD ≠ some [69, 65, 45, 80, 83] := by decide

/-- C5 amended: `as_string` drops exactly the final byte, so the field
`b"EA-PS" + 11 * NUL` decodes to the 15-byte sequence `"EA-PS"` followed
by ten NUL bytes; in general, for any field of byte values the decoded
result is the input minus its last byte. -/
theorem as_string_drops_last_byte :
    as_string EA_PS_RAW_FIELD =
      some ([69, 65, 45, 80, 83] ++ List.replicate 10 0) ∧
    ∀ raw_data : List Int, raw_data.all is_byte = true →
      as_string raw_data =
        some ((raw_data.take (raw_data.length - 1)).map Int.toNat) := by
  refine ⟨by decide, ?_⟩
  intro raw h
  have h2 : (raw.take (raw.length - 1)).all is_byte = true := by
    rw [List.all_eq_true] at h ⊢
    exact fun b hb => h b (List.take_subset _ _ hb)
  unfold as_string to_bytearray
  rw [if_pos h2]

theorem as_string_drops_last_byte_witness :
    ([69, 65, 45, 80, 83] : List Int).all is_byte = true ∧
    as_string [69, 65, 45, 80, 83] =
      some (([69, 65, 45, 80, 83].take (([69, 65, 45, 80, 83] : List Int).length - 1)).map
        Int.toNat) :=
  ⟨by decide, (as_string_drops_last_byte).2 [69, 65, 45, 80, 83] (by decide)⟩

/-! ## Concrete frames exchanged by the session operations -/

/-- The status query frame
`ToPowerSupply(0b01, [DEVICE_NODE, STATUS_ACTUAL_VALUES], 6)`:
delimiter `0x75`, node 0, object 71, checksum `0x00bc`. -/
def STATUS_QUERY_FRAME : List Nat := [0x75, 0x00, 0x47, 0x00, 0xbc]

/-- The enable-remote-control frame
`ToPowerSupply(0b11, [DEVICE_NODE, POWER_SUPPLY_CONTROL, 0x10, 0x10], 2)`:
delimiter `0xf1`, node 0, object 54, parameters `0x10 0x10`, checksum
`0x0147`. -/
def REMOTE_ON_FRAME : List Nat := [0xf1, 0x00, 0x36, 0x10, 0x10, 0x01, 0x47]

/-- A benign mock reply (12 NUL bytes): parses into an all-zero status
snapshot. -/
def STATUS_OK_REPLY : List Nat := List.replicate 12 0

/-- `update_device_information` always writes exactly the status query
frame, and stores whatever status parses out of the oracle's reply. -/
theorem update_device_information_eq (respond : List Nat → List Nat)
    (s : PS2000BState) :
    update_device_information respond s =
      match DeviceStatusInformation.init
          (FromPowerSupply.init (respond STATUS_QUERY_FRAME)).get_data with
      | none => none
      | some dsi =>
        some ({ s with device_status_information := some dsi },
          [STATUS_QUERY_FRAME]) :=
  rfl

/-- `enable_remote_control` writes the remote-control frame and then
behaves like `update_device_information`, prepending that frame to the
trace. -/
theorem enable_remote_control_eq (respond : List Nat → List Nat)
    (s : PS2000BState) :
    enable_remote_control respond s =
      match update_device_information respond s with
      | none => none
      | some (s1, tr) => some (s1, REMOTE_ON_FRAME :: tr) :=
  rfl

/-- C9: lazy status load.  `get_device_status_information` performs the
status-refresh round-trip iff no snapshot is cached: with a cached
snapshot it returns it with an empty transport trace; with an empty
cache it refreshes once.  `get_voltage` and `get_current` always perform
exactly one fresh refresh round-trip. -/
theorem lazy_status_load (respond : List Nat → List Nat) (s : PS2000BState)
    (dsi : DeviceStatusInformation)
    (hresp : DeviceStatusInformation.init
      (FromPowerSupply.init (respond STATUS_QUERY_FRAME)).get_data = some dsi) :
    (∀ d, s.device_status_information = some d →
      get_device_status_information respond s = some (d, s, [])) ∧
    (s.device_status_information = none →
      get_device_status_information respond s =
        some (dsi, { s with device_status_information := some dsi },
          [STATUS_QUERY_FRAME])) ∧
    (get_voltage respond s).map (fun r => r.2.2) = some [STATUS_QUERY_FRAME] ∧
    (get_current respond s).map (fun r => r.2.2) = some [STATUS_QUERY_FRAME] := by
  have hupd : update_device_information respond s =
      some ({ s with device_status_information := some dsi },
        [STATUS_QUERY_FRAME]) := by
    rw [update_device_information_eq, hresp]
  refine ⟨?_, ?_, ?_, ?_⟩
  · intro d hd
    unfold get_device_status_information
    rw [hd]
  · intro hnone
    unfold get_device_status_information
    rw [hnone, hupd]
  · unfold get_voltage
    rw [hupd]
    rfl
  · unfold get_current
    rw [hupd]
    rfl

/-- The all-zero mock reply parses into the all-zero status snapshot. -/
theorem status_ok_reply_parse :
    DeviceStatusInformation.init
      (FromPowerSupply.init STATUS_OK_REPLY).get_data = some ⟨0, 0, 0, 0⟩ := by
  show some (⟨0, 0, (((0 : ℤ) : ℚ)) / 256, (((0 : ℤ) : ℚ)) / 256⟩ :
    DeviceStatusInformation) = some ⟨0, 0, 0, 0⟩
  norm_num

theorem lazy_status_load_witness :
    (DeviceStatusInformation.init
      (FromPowerSupply.init STATUS_OK_REPLY).get_data = some ⟨0, 0, 0, 0⟩) ∧
    get_device_status_information (fun _ => STATUS_OK_REPLY)
        ⟨20, 10, some ⟨1, 1, 2, 3⟩⟩ =
      some (⟨1, 1, 2, 3⟩, ⟨20, 10, some ⟨1, 1, 2, 3⟩⟩, []) ∧
    get_device_status_information (fun _ => STATUS_OK_REPLY) ⟨20, 10, none⟩ =
      some (⟨0, 0, 0, 0⟩, ⟨20, 10, some ⟨0, 0, 0, 0⟩⟩, [STATUS_QUERY_FRAME]) ∧
    (get_voltage (fun _ => STATUS_OK_REPLY) ⟨20, 10, none⟩).map
      (fun r => r.2.2) = some [STATUS_QUERY_FRAME] :=
  ⟨status_ok_reply_parse,
   (lazy_status_load (fun _ => STATUS_OK_REPLY) ⟨20, 10, some ⟨1, 1, 2, 3⟩⟩
     ⟨0, 0, 0, 0⟩ status_ok_reply_parse).1 ⟨1, 1, 2, 3⟩ rfl,
   (lazy_status_load (fun _ => STATUS_OK_REPLY) ⟨20, 10, none⟩
     ⟨0, 0, 0, 0⟩ status_ok_reply_parse).2.1 rfl,
   (lazy_status_load (fun _ => STATUS_OK_REPLY) ⟨20, 10, none⟩
     ⟨0, 0, 0, 0⟩ status_ok_reply_parse).2.2.1⟩

/-- `DeviceStatusInformation.__init__` on a six-byte status field with
valid byte values: remote flag, output flag, and the two big-endian
words scaled by 256. -/
theorem DeviceStatusInformation.init_six (b0 b1 vh vl ch cl : Int)
    (h1 : ([vh, vl] : List Int).all is_byte = true)
    (h2 : ([ch, cl] : List Int).all is_byte = true) :
    DeviceStatusInformation.init [b0, b1, vh, vl, ch, cl] =
      some ⟨Int.land b0 0b1, Int.land b1 0b1,
        ((vh * 256 + vl : Int) : ℚ) / 256, ((ch * 256 + cl : Int) : ℚ) / 256⟩ := by
  have hw1 : as_word (([b0, b1, vh, vl, ch, cl].drop 2).take 2) =
      some (vh * 256 + vl) := by
    show as_word [vh, vl] = some (vh * 256 + vl)
    unfold as_word
    rw [h1]
    rfl
  have hw2 : as_word (([b0, b1, vh, vl, ch, cl].drop 4).take 2) =
      some (ch * 256 + cl) := by
    show as_word [ch, cl] = some (ch * 256 + cl)
    unfold as_word
    rw [h2]
    rfl
  unfold DeviceStatusInformation.init
  rw [hw1, hw2]
  rfl

/-- A modelled status reply frame whose actual-voltage word has high
byte `hi` and low byte `lo` (value `hi * 256 + lo` on the 0–25600
scale); the remaining fields and the trailing checksum bytes are zero
(the session never checks the reply's `checksum_ok`). -/
def STATUS_REPLY_V (hi lo : Nat) : List Nat :=
  [0, 0, 0, 0, 0, hi, lo, 0, 0, 0, 0]

theorem status_reply_v_parse (hi lo : Nat) (hhi : hi < 256) (hlo : lo < 256) :
    DeviceStatusInformation.init
      (FromPowerSupply.init (STATUS_REPLY_V hi lo)).get_data =
      some ⟨0, 0, ((hi * 256 + lo : Nat) : ℚ) / 256, 0⟩ := by
  have hdata : (FromPowerSupply.init (STATUS_REPLY_V hi lo)).get_data =
      [0, 0, Int.ofNat hi, Int.ofNat lo, 0, 0] := rfl
  rw [hdata]
  have hb1 : ([Int.ofNat hi, Int.ofNat lo] : List Int).all is_byte = true := by
    rw [List.all_cons, List.all_cons, is_byte_ofNat hi hhi, is_byte_ofNat lo hlo]
    rfl
  rw [DeviceStatusInformation.init_six 0 0 (Int.ofNat hi) (Int.ofNat lo) 0 0 hb1
    (by rfl)]
  have e2 : ((Int.ofNat hi * 256 + Int.ofNat lo : Int) : ℚ) =
      ((hi * 256 + lo : Nat) : ℚ) := by
    simp only [Int.ofNat_eq_natCast]
    push_cast
    ring
  rw [e2]
  have e3 : Int.land 0 1 = 0 := rfl
  rw [e3]
  norm_num

/-- `py_round` is the identity on integer-valued rationals. -/
theorem py_round_int (n : ℤ) : py_round ((n : ℤ) : ℚ) = n := by
  unfold py_round
  rw [Int.floor_intCast]
  norm_num

/-- C4: voltage readback conversion.  For every nominal voltage `N` and
every status reply whose actual-voltage word is `W = hi * 256 + lo`,
`get_voltage` returns `N * (W / 256) / 100`; in particular, for
`N = 20` and `W = 12800` (`hi = 50, lo = 0`) the result is `10`, and the
write-direction conversion `round(value * 25600 / N)` used by
`set_voltage` maps `10` back to `12800`. -/
theorem voltage_readback (N c : ℚ) (dsi0 : Option DeviceStatusInformation)
    (hi lo : Nat) (hhi : hi < 256) (hlo : lo < 256) :
    ((get_voltage (fun _ => STATUS_REPLY_V hi lo) ⟨N, c, dsi0⟩).map
        (fun r => r.1) =
      some (N * (((hi * 256 + lo : Nat) : ℚ) / 256) / 100)) ∧
    ((get_voltage (fun _ => STATUS_REPLY_V 50 0) ⟨20, c, dsi0⟩).map
        (fun r => r.1) = some 10) ∧
    py_round ((10 : ℚ) * 25600 / 20) = 12800 := by
  refine ⟨?_, ?_, ?_⟩
  · have hupd : update_device_information (fun _ => STATUS_REPLY_V hi lo)
        ⟨N, c, dsi0⟩ =
        some (⟨N, c, some ⟨0, 0, ((hi * 256 + lo : Nat) : ℚ) / 256, 0⟩⟩,
          [STATUS_QUERY_FRAME]) := by
      rw [update_device_information_eq, status_reply_v_parse hi lo hhi hlo]
    unfold get_voltage
    rw [hupd]
    rfl
  · have hupd : update_device_information (fun _ => STATUS_REPLY_V 50 0)
        ⟨20, c, dsi0⟩ =
        some (⟨20, c, some ⟨0, 0, ((50 * 256 + 0 : Nat) : ℚ) / 256, 0⟩⟩,
          [STATUS_QUERY_FRAME]) := by
      rw [update_device_information_eq,
        status_reply_v_parse 50 0 (by norm_num) (by norm_num)]
    unfold get_voltage
    rw [hupd]
    show some ((20 : ℚ) * (((50 * 256 + 0 : Nat) : ℚ) / 256) / 100) = some 10
    norm_num
  · rw [show (10 : ℚ) * 25600 / 20 = ((12800 : ℤ) : ℚ) by norm_num]
    exact py_round_int 12800

theorem voltage_readback_witness :
    (50 : Nat) < 256 ∧ (0 : Nat) < 256 ∧
    ((get_voltage (fun _ => STATUS_REPLY_V 50 0) ⟨20, 20, none⟩).map
        (fun r => r.1) =
      some (20 * (((50 * 256 + 0 : Nat) : ℚ) / 256) / 100)) :=
  ⟨by decide, by decide,
   (voltage_readback 20 20 none 50 0 (by decide) (by decide)).1⟩

/-- `__send_device_data` with the voltage setpoint object and a raw word
in `[0, 65536)`: one control frame (delimiter `0xf3`) followed by the
status refresh. -/
theorem send_device_data_ok (respond : List Nat → List Nat) (volt : Int)
    (s : PS2000BState) (dsi : DeviceStatusInformation)
    (hresp : DeviceStatusInformation.init
      (FromPowerSupply.init (respond STATUS_QUERY_FRAME)).get_data = some dsi)
    (h0 : 0 ≤ volt) (h1 : volt < 65536) :
    ∃ cframe, send_device_data respond SET_VALUE_VOLTAGE volt s =
      some ({ s with device_status_information := some dsi },
        [cframe, STATUS_QUERY_FRAME]) ∧
      cframe.head? = some 0xf3 := by
  obtain ⟨v, rfl⟩ : ∃ v : Nat, volt = Int.ofNat v :=
    ⟨volt.toNat, (Int.toNat_of_nonneg h0).symm⟩
  have hv : v < 65536 := by
    simp only [Int.ofNat_eq_natCast] at h1
    exact_mod_cast h1
  have hb : ∀ b ∈ [(0xf3 : Int), DEVICE_NODE, SET_VALUE_VOLTAGE,
      Int.ofNat (v >>> 8), Int.ofNat (v &&& 0xff)], is_byte b = true := by
    intro b hbm
    simp only [List.mem_cons, List.not_mem_nil, or_false] at hbm
    rcases hbm with rfl | rfl | rfl | rfl | rfl
    · decide
    · decide
    · decide
    · refine is_byte_ofNat _ ?_
      rw [Nat.shiftRight_eq_div_pow]
      omega
    · refine is_byte_ofNat _ ?_
      have := Nat.and_le_right (n := v) (m := 0xff)
      omega
  obtain ⟨hta, -⟩ := roundtrip_core [(0xf3 : Int), DEVICE_NODE, SET_VALUE_VOLTAGE,
      Int.ofNat (v >>> 8), Int.ofNat (v &&& 0xff)] hb
  have hupd : update_device_information respond s =
      some ({ s with device_status_information := some dsi },
        [STATUS_QUERY_FRAME]) := by
    rw [update_device_information_eq, hresp]
  have hinit : ToPowerSupply.init 0b11 [DEVICE_NODE, SET_VALUE_VOLTAGE,
      Int.shiftRight (Int.ofNat v) 8, Int.land (Int.ofNat v) 0xff] 4 =
      Except.ok ⟨[(0xf3 : Int), DEVICE_NODE, SET_VALUE_VOLTAGE,
        Int.ofNat (v >>> 8), Int.ofNat (v &&& 0xff)],
        calc_checksum [(0xf3 : Int), DEVICE_NODE, SET_VALUE_VOLTAGE,
          Int.ofNat (v >>> 8), Int.ofNat (v &&& 0xff)], true⟩ := by
    unfold ToPowerSupply.init
    rw [show get_start_delimiter 0b11 4 = Except.ok 0xf3 from rfl]
    rfl
  refine ⟨([(0xf3 : Int), DEVICE_NODE, SET_VALUE_VOLTAGE,
      Int.ofNat (v >>> 8), Int.ofNat (v &&& 0xff)] ++
      calc_checksum [(0xf3 : Int), DEVICE_NODE, SET_VALUE_VOLTAGE,
      Int.ofNat (v >>> 8), Int.ofNat (v &&& 0xff)]).map Int.toNat, ?_, ?_⟩
  · simp only [send_device_data, hinit]
    simp only [ToPowerSupply.get_byte_array]
    rw [hta, hupd]
  · rfl

/-- Full transcript of `set_voltage`: status query, remote-control
frame, status query, set-value control frame, status query. -/
theorem set_voltage_trace_aux (respond : List Nat → List Nat) (value : ℚ)
    (s : PS2000BState) (dsi : DeviceStatusInformation)
    (hresp : DeviceStatusInformation.init
      (FromPowerSupply.init (respond STATUS_QUERY_FRAME)).get_data = some dsi)
    (hnom : s.nominal_voltage ≠ 0)
    (h0 : 0 ≤ py_round (value * 25600 / s.nominal_voltage))
    (h1 : py_round (value * 25600 / s.nominal_voltage) < 65536) :
    ∃ s3 cframe,
      set_voltage respond value s =
        some (s3, [STATUS_QUERY_FRAME, REMOTE_ON_FRAME, STATUS_QUERY_FRAME,
          cframe, STATUS_QUERY_FRAME]) ∧
      cframe.head? = some 0xf3 := by
  have hupd : ∀ st : PS2000BState, update_device_information respond st =
      some ({ st with device_status_information := some dsi },
        [STATUS_QUERY_FRAME]) := fun st => by
    rw [update_device_information_eq, hresp]
  have henable : enable_remote_control respond
      (⟨s.nominal_voltage, s.nominal_current, some dsi⟩ : PS2000BState) =
      some (⟨s.nominal_voltage, s.nominal_current, some dsi⟩,
        [REMOTE_ON_FRAME, STATUS_QUERY_FRAME]) := by
    rw [enable_remote_control_eq, hupd ⟨s.nominal_voltage, s.nominal_current, some dsi⟩]
  obtain ⟨cframe, hsend, hhead⟩ := send_device_data_ok respond
    (py_round (value * 25600 / s.nominal_voltage))
    (⟨s.nominal_voltage, s.nominal_current, some dsi⟩ : PS2000BState) dsi hresp h0 h1
  refine ⟨⟨s.nominal_voltage, s.nominal_current, some dsi⟩, cframe, ?_, hhead⟩
  simp only [set_voltage, hupd s, henable]
  rw [if_neg hnom]
  simp only [hsend]
  rfl

/-- `py_round` at the concrete conversion `12 V * 25600 / 20 V`. -/
theorem py_round_sample : py_round ((12 : ℚ) * 25600 / 20) = 15360 := by
  rw [show (12 : ℚ) * 25600 / 20 = ((15360 : ℤ) : ℚ) by norm_num]
  exact py_round_int 15360

/-- C2 counterexample: on the concrete Ready session (nominal 20 V,
mock transport answering every request with an all-zero parseable
reply), `set_voltage 12` performs five transport exchanges, so the
exchange count is not two. -/
theorem set_voltage_not_two_exchanges :
    (set_voltage (fun _ => STATUS_OK_REPLY) 12
      (⟨20, 10, none⟩ : PS2000BState)).map (fun r => r.2.length) ≠ some 2 := by
  obtain ⟨s3, cframe, heq, -⟩ := set_voltage_trace_aux (fun _ => STATUS_OK_REPLY)
    12 ⟨20, 10, none⟩ ⟨0, 0, 0, 0⟩ status_ok_reply_parse
    (by show (20 : ℚ) ≠ 0; norm_num)
    (by show 0 ≤ py_round ((12 : ℚ) * 25600 / 20); rw [py_round_sample]; decide)
    (by show py_round ((12 : ℚ) * 25600 / 20) < 65536; rw [py_round_sample]; decide)
  rw [heq]
  simp

/-- C2 amended: `set_voltage` on a Ready session issues FIVE transport
exchanges, not two: a status query (`update_device_information`), then
`enable_remote_control` (one control round-trip plus one status query),
then the set-value payload (one control round-trip plus one status
query).  The claimed "one control round-trip followed by one
status-query round-trip" covers only the final two exchanges. -/
theorem set_voltage_five_exchanges (respond : List Nat → List Nat)
    (value : ℚ) (s : PS2000BState) (dsi : DeviceStatusInformation)
    (hresp : DeviceStatusInformation.init
      (FromPowerSupply.init (respond STATUS_QUERY_FRAME)).get_data = some dsi)
    (hnom : s.nominal_voltage ≠ 0)
    (h0 : 0 ≤ py_round (value * 25600 / s.nominal_voltage))
    (h1 : py_round (value * 25600 / s.nominal_voltage) < 65536) :
    ∃ s3 cframe,
      set_voltage respond value s =
        some (s3, [STATUS_QUERY_FRAME, REMOTE_ON_FRAME, STATUS_QUERY_FRAME,
          cframe, STATUS_QUERY_FRAME]) ∧
      cframe.head? = some 0xf3 :=
  set_voltage_trace_aux respond value s dsi hresp hnom h0 h1

theorem set_voltage_five_exchanges_witness :
    ∃ s3 cframe,
      set_voltage (fun _ => STATUS_OK_REPLY) 12 (⟨20, 10, none⟩ : PS2000BState) =
        some (s3, [STATUS_QUERY_FRAME, REMOTE_ON_FRAME, STATUS_QUERY_FRAME,
          cframe, STATUS_QUERY_FRAME]) ∧
      cframe.head? = some 0xf3 :=
  set_voltage_five_exchanges (fun _ => STATUS_OK_REPLY) 12 ⟨20, 10, none⟩
    ⟨0, 0, 0, 0⟩ status_ok_reply_parse
    (by show (20 : ℚ) ≠ 0; norm_num)
    (by show 0 ≤ py_round ((12 : ℚ) * 25600 / 20); rw [py_round_sample]; decide)
    (by show py_round ((12 : ℚ) * 25600 / 20) < 65536; rw [py_round_sample]; decide)
